import Mathlib

/-!
# Verification of the Movies DynamoDB client

Shallow embedding of `dynamodb_handler.py` and `main.py` (repository
aanshi20/Demo1) and proofs about the claims of the specification.

Modelling conventions:
* DynamoDB numbers are exact decimals; we embed them as `ℚ`.
* An item is a record with the attributes the program touches: `year`
  (partition key), `title` (sort key) and the nested `info.rating` field.
  Each is optional, as a DynamoDB item may lack any non-key attribute and
  the code defends against a missing `year` (dynamodb_handler.py line 114).
* The backing store (an external collaborator, spec section 6) is a
  parameter of each embedded operation: a scan function returning pages
  with an optional `LastEvaluatedKey`, an update function returning the
  outcome of `update_item`, and a delete function returning the outcome of
  `delete_item`.  `ClientError` outcomes model `botocore` client errors.
* `print` output is modelled by a list of `Msg` values, one constructor
  per `print` statement of the source, carrying the interpolated data.
* The `while` pagination loops of the source recurse on a fuel parameter;
  theorems assume enough fuel for the store at hand.
-/

/-- A DynamoDB item as used by this program: the `year` partition key, the
`title` sort key and the nested `info.rating` attribute.  All other
attributes are irrelevant to every operation of the source. -/
structure Item where
  year : Option ℚ
  title : Option String
  rating : Option ℚ
  deriving DecidableEq

/-- One `print` statement of the source, with its interpolated data.
Constructors are listed in source order (dynamodb_handler.py, then
main.py). -/
inductive Msg where
  | scanningAll                                      -- handler line 39
  | foundRecords (n : ℕ)                             -- handler line 48
  | scanClientError (m : String)                     -- handler line 51
  | updatingRating (title : String) (year : ℚ) (rating : ℚ)  -- handler line 64
  | updateSuccessful                                 -- handler line 71
  | updateNotFound (title : String) (year : ℚ)       -- handler line 76
  | updateClientError (m : String)                   -- handler line 78
  | attemptUpdateByTitle (title : String) (rating : ℚ)  -- handler line 92
  | noMovieFoundTitle (title : String)               -- handler lines 109 and 158
  | foundMoviesAttempting (n : ℕ) (title : String)   -- handler line 112
  | missingYearWarning (title : String)              -- handler line 121
  | updatedCountSuccess (n : ℕ) (title : String)     -- handler line 124
  | noUpdatesApplied (title : String)                -- handler line 127
  | titleSearchClientError (m : String)              -- handler lines 131 and 165
  | searchingTitle (title : String)                  -- handler line 143
  | foundMoviesCount (n : ℕ) (title : String)        -- handler line 160
  | deletingMovie (title : String) (year : ℚ)        -- handler line 177
  | deletionSuccessful                               -- handler line 183
  | deleteNotFound (title : String) (year : ℚ)       -- handler line 185
  | deleteClientError (m : String)                   -- handler line 188
  | noRecordsToDisplay                               -- main line 16
  | displayRecords (records : List Item)             -- main lines 20-25
  | invalidRating                                    -- main line 67
  | foundOneMovie                                    -- main line 93
  | foundMultipleMovies                              -- main line 99
  | invalidYear                                      -- main line 105
  | noMatchingKey (title : String) (year : ℚ)        -- main line 112
  deriving DecidableEq

/-- Outcome of one `table.scan(...)` request: a page of items together
with an optional `LastEvaluatedKey` (modelled as a page index), or a
`botocore` `ClientError`. -/
inductive ScanResult where
  | ok (items : List Item) (lastEvaluatedKey : Option ℕ)
  | clientError (m : String)
  deriving DecidableEq

/-- The store's scan endpoint: maps the `ExclusiveStartKey` of the request
(`none` for the initial request) to a result. -/
abbrev ScanFn := Option ℕ → ScanResult

/-- The backing store contract for scans (spec section 6): a table whose
scan is served in the given pages, each response carrying the index of the
next page as `LastEvaluatedKey` while more pages remain. -/
def pagedScan (pages : List (List Item)) : ScanFn := fun start =>
  let i := match start with | none => 0 | some k => k
  .ok (pages.getD i []) (if i + 1 < pages.length then some (i + 1) else none)

/-- The `while 'LastEvaluatedKey' in response` loop of `get_all_records`
(dynamodb_handler.py lines 44-46), also counting the scan calls issued.
`k` is the `LastEvaluatedKey` of the previous response.  Fuel exhaustion
(unreachable for a paged store with enough fuel) yields `none`. -/
def get_all_loop (scan : ScanFn) : ℕ → List Item → ℕ → ℕ → Option (List Item) × ℕ
  | 0, _, _, calls => (none, calls)
  | fuel + 1, acc, k, calls =>
    match scan (some k) with
    | .clientError _ => (none, calls + 1)
    | .ok items none => (some (acc ++ items), calls + 1)
    | .ok items (some next) => get_all_loop scan fuel (acc ++ items) next (calls + 1)

/-- `get_all_records` (dynamodb_handler.py lines 28-52): scans the table,
follows `LastEvaluatedKey` until absent, extends the accumulated items
with every page, and returns `None` on a `ClientError`.  Returns the
result together with the number of underlying scan calls issued. -/
def get_all_records (scan : ScanFn) (fuel : ℕ) : Option (List Item) × ℕ :=
  match scan none with
  | .clientError _ => (none, 1)
  | .ok items none => (some items, 1)
  | .ok items (some next) => get_all_loop scan fuel items next 1

/-- Rounding of a rational to the nearest integer, ties to even — the
rounding rule of IEEE-754 binary64, which Python floats implement. -/
def roundHalfEven (q : ℚ) : ℤ :=
  let f := ⌊q⌋
  if q - f < 1 / 2 then f
  else if 1 / 2 < q - f then f + 1
  else if 2 ∣ f then f else f + 1

/-- The value of the IEEE-754 binary64 float nearest to `q` (round to
nearest, ties to even), as a rational: the significand is rounded to 53
bits.  Overflow and subnormal underflow are not modelled; every value this
development evaluates is well inside the normal range, where this is
exactly the conversion Python's `float` performs. -/
def floatRound (q : ℚ) : ℚ :=
  if q = 0 then 0
  else
    (if q < 0 then -1 else 1) *
      ((roundHalfEven (|q| * 2 ^ ((52 : ℤ) - Int.log 2 |q|)) : ℚ)
        * 2 ^ (Int.log 2 |q| - 52))

/-- Helper for `pyReprVal`: starting at `k` significant decimal digits,
find the first decimal numeral (nearest at that length) whose binary64
reading is exactly `x`, and return its value.  17 digits always round-trip
binary64, so the fuel fallback is unreachable for float inputs. -/
def shortestReprFrom (x : ℚ) (e : ℤ) : ℕ → ℕ → ℚ
  | 0, _ => x
  | fuel + 1, k =>
    let unit : ℚ := 10 ^ (e - (k : ℤ) + 1)
    let cand := (roundHalfEven (x / unit) : ℚ) * unit
    if floatRound cand = x then cand else shortestReprFrom x e fuel (k + 1)

/-- The value of `repr`/`str` of a Python float `x`: the shortest decimal
numeral that reads back (by binary64 rounding) to `x`. -/
def pyReprVal (x : ℚ) : ℚ :=
  if x = 0 then 0 else shortestReprFrom x (Int.log 10 |x|) 17 1

/-- The decimal digit value of a character, if it is one. -/
def digitVal (c : Char) : Option ℕ :=
  if '0' ≤ c ∧ c ≤ '9' then some (c.toNat - '0'.toNat) else none

/-- Reads a non-empty run of decimal digits left to right. -/
def parseNatAux : List Char → ℕ → Option ℕ
  | [], acc => some acc
  | c :: cs, acc =>
    match digitVal c with
    | some d => parseNatAux cs (acc * 10 + d)
    | none => none

/-- Python's `int(s)` on the decimal-numeral subset of its grammar:
an optional sign followed by digits; anything else raises `ValueError`,
modelled as `none`. -/
def pyParseInt (s : String) : Option ℤ :=
  match s.data with
  | [] => none
  | '-' :: cs =>
    match cs with
    | [] => none
    | _ => (parseNatAux cs 0).map fun n => -(n : ℤ)
  | cs => (parseNatAux cs 0).map fun n => (n : ℤ)

/-- Splits a character list at the first dot. -/
def splitDot : List Char → List Char × Option (List Char)
  | [] => ([], none)
  | c :: cs =>
    if c = '.' then ([], some cs)
    else
      let (w, f) := splitDot cs
      (c :: w, f)

/-- Parses a decimal numeral into (sign, whole part, fraction digits,
fraction length); `none` models `ValueError`. -/
def parseDecParts (s : String) : Option (Bool × ℕ × ℕ × ℕ) :=
  let cs := s.data
  let p := match cs with
    | '-' :: rest => ((true : Bool), rest)
    | _ => ((false : Bool), cs)
  let (w, fpart) := splitDot p.2
  match fpart with
  | none =>
    if w = [] then none
    else (parseNatAux w 0).map fun a => (p.1, a, 0, 0)
  | some f =>
    if w = [] ∧ f = [] then none
    else
      match parseNatAux w 0, parseNatAux f 0 with
      | some a, some b => some (p.1, a, b, f.length)
      | _, _ => none

/-- The exact rational value of a decimal numeral string, or `none` when
it is not one. -/
def decimalValOfString (s : String) : Option ℚ :=
  (parseDecParts s).map fun p =>
    (if p.1 then -1 else 1) * ((p.2.1 : ℚ) + (p.2.2.1 : ℚ) / 10 ^ p.2.2.2)

/-- Python's `float(s)` on the decimal-numeral subset of its grammar: the
exact decimal value rounded to binary64.  Non-numeral strings raise
`ValueError`, modelled as `none`. -/
def pyFloatOfString (s : String) : Option ℚ :=
  (decimalValOfString s).map floatRound

/-- Python's `s.lower()` (main.py line 95). -/
def pyLower (s : String) : String := ⟨s.data.map Char.toLower⟩

/-- Python truthiness of `item.get('year')` (dynamodb_handler.py line
115): `None` and `Decimal(0)` are falsy, every other number truthy. -/
def pyTruthyNum : Option ℚ → Bool
  | none => false
  | some y => y ≠ 0

/-- The value `update_movie_rating` writes to the store:
`Decimal(str(new_rating))` (dynamodb_handler.py line 68), where
`new_rating` arrives as a Python float (main.py line 65), so `str` yields
its shortest round-tripping decimal numeral and `Decimal` its exact
value. -/
def update_payload (new_rating : ℚ) : ℚ := pyReprVal new_rating

/-- `float(o)` applied to a `Decimal` by `DecimalEncoder.default`
(dynamodb_handler.py lines 192-196): binary64 rounding of the exact
decimal. -/
def DecimalEncoder_default (d : ℚ) : ℚ := floatRound d

/-- The numeric value `json.dumps` prints for a rating (main.py line 24):
`DecimalEncoder` turns the stored `Decimal` into a float, and the JSON
serializer writes that float's `repr`. -/
def displayedNumeral (d : ℚ) : ℚ := pyReprVal (DecimalEncoder_default d)

/-- Outcome of one `table.update_item(...)` request (dynamodb_handler.py
lines 65-70): the updated attributes (`ReturnValues="UPDATED_NEW"`), a
`ConditionalCheckFailedException` client error, or any other
`ClientError`. -/
inductive UpdateOutcome where
  | ok (attrs : Item)
  | conditionalCheckFailed
  | clientError (m : String)
  deriving DecidableEq

/-- True exactly on a successful `update_item` response. -/
def UpdateOutcome.isOk : UpdateOutcome → Bool
  | .ok _ => true
  | _ => false

/-- The store's update endpoint: `(year, title, new rating value)` to
outcome. -/
abbrev UpdateFn := ℚ → String → ℚ → UpdateOutcome

/-- Result of `update_movie_rating`: the returned value (the `update_item`
response, or `None` from the except branches), the printed messages, and
the keys of the `update_item` requests issued. -/
structure UpdateCallOut where
  result : Option Item
  msgs : List Msg
  calls : List (ℚ × String)
  deriving DecidableEq

/-- `update_movie_rating` (dynamodb_handler.py lines 54-79): one
conditional `update_item` keyed by `(year, title)` setting `info.rating`
to `Decimal(str(new_rating))`; on `ConditionalCheckFailedException` it
prints a specific not-found message, on any other `ClientError` the
generic fault message, and returns `None` in both cases. -/
def update_movie_rating (store : UpdateFn) (year : ℚ) (title : String)
    (new_rating : ℚ) : UpdateCallOut :=
  match store year title (update_payload new_rating) with
  | .ok attrs =>
    { result := some attrs
      msgs := [.updatingRating title year new_rating, .updateSuccessful]
      calls := [(year, title)] }
  | .conditionalCheckFailed =>
    { result := none
      msgs := [.updatingRating title year new_rating, .updateNotFound title year]
      calls := [(year, title)] }
  | .clientError m =>
    { result := none
      msgs := [.updatingRating title year new_rating, .updateClientError m]
      calls := [(year, title)] }

/-- The filtered-scan pagination loop shared by
`update_movie_rating_by_title` (dynamodb_handler.py lines 101-106) and
`find_movies_by_title` (lines 150-155).  A `ClientError` anywhere raises,
carrying the store's message; fuel exhaustion (unreachable for a paged
store with enough fuel) is reported like an error. -/
def scan_paginate_loop (scan : ScanFn) : ℕ → List Item → ℕ → Except String (List Item)
  | 0, _, _ => .error "fuel exhausted"
  | fuel + 1, acc, k =>
    match scan (some k) with
    | .clientError m => .error m
    | .ok items none => .ok (acc ++ items)
    | .ok items (some next) => scan_paginate_loop scan fuel (acc ++ items) next

/-- Initial filtered scan plus pagination (dynamodb_handler.py lines
96-106 and 145-155). -/
def scan_paginate (scan : ScanFn) (fuel : ℕ) : Except String (List Item) :=
  match scan none with
  | .clientError m => .error m
  | .ok items none => .ok items
  | .ok items (some next) => scan_paginate_loop scan fuel items next

/-- Accumulated effect of the per-item update loop: the successful
responses collected in `updated_responses`, the printed messages and the
issued update keys. -/
structure ItemsLoopOut where
  resps : List Item
  msgs : List Msg
  calls : List (ℚ × String)
  deriving DecidableEq

/-- The `for item in items_to_update` loop of
`update_movie_rating_by_title` (dynamodb_handler.py lines 113-121).
`movie_year = item.get('year')` is tested by Python truthiness, so a
missing year and a year equal to 0 both take the warning branch. -/
def update_items_loop (store : UpdateFn) (title : String) (new_rating : ℚ) :
    List Item → ItemsLoopOut
  | [] => ⟨[], [], []⟩
  | item :: rest =>
    let o := update_items_loop store title new_rating rest
    match item.year with
    | some y =>
      if y = 0 then ⟨o.resps, .missingYearWarning title :: o.msgs, o.calls⟩
      else
        let u := update_movie_rating store y title new_rating
        ⟨(match u.result with | some a => a :: o.resps | none => o.resps),
          u.msgs ++ o.msgs, u.calls ++ o.calls⟩
    | none => ⟨o.resps, .missingYearWarning title :: o.msgs, o.calls⟩

/-- Result of `update_movie_rating_by_title`: the returned value (a list
of responses, or `None`), the printed messages and the issued update
keys. -/
structure MultiUpdateOut where
  result : Option (List Item)
  msgs : List Msg
  calls : List (ℚ × String)
  deriving DecidableEq

/-- `update_movie_rating_by_title` (dynamodb_handler.py lines 81-132):
paginated title-filtered scan (`scanT` is the store's response to the
filtered scan), then one `update_movie_rating` per found item with a
truthy year; returns `None` when nothing matched, when the scan raised a
`ClientError`, or when no per-item update succeeded, and the list of
successful responses otherwise. -/
def update_movie_rating_by_title (scanT : ScanFn) (store : UpdateFn)
    (title : String) (new_rating : ℚ) (fuel : ℕ) : MultiUpdateOut :=
  let msgs0 : List Msg := [.attemptUpdateByTitle title new_rating]
  match scan_paginate scanT fuel with
  | .error m => ⟨none, msgs0 ++ [.titleSearchClientError m], []⟩
  | .ok items =>
    if items = [] then ⟨none, msgs0 ++ [.noMovieFoundTitle title], []⟩
    else
      let o := update_items_loop store title new_rating items
      let msgs1 := msgs0 ++ [.foundMoviesAttempting items.length title] ++ o.msgs
      if o.resps = [] then ⟨none, msgs1 ++ [.noUpdatesApplied title], o.calls⟩
      else ⟨some o.resps, msgs1 ++ [.updatedCountSuccess o.resps.length title], o.calls⟩

/-- Result of `find_movies_by_title`: the returned list and the printed
messages. -/
structure FindOut where
  items : List Item
  msgs : List Msg
  deriving DecidableEq

/-- `find_movies_by_title` (dynamodb_handler.py lines 134-166): paginated
title-filtered scan; returns the found items, and the empty list both
when nothing matched and when the scan raised a `ClientError` (the two
cases differ only in the printed message). -/
def find_movies_by_title (scanT : ScanFn) (title : String) (fuel : ℕ) : FindOut :=
  let msgs0 : List Msg := [.searchingTitle title]
  match scan_paginate scanT fuel with
  | .error m => ⟨[], msgs0 ++ [.titleSearchClientError m]⟩
  | .ok items =>
    if items = [] then ⟨items, msgs0 ++ [.noMovieFoundTitle title]⟩
    else ⟨items, msgs0 ++ [.foundMoviesCount items.length title]⟩

/-- Outcome of one `table.delete_item(...)` request: the response, whose
`Attributes` entry holds the deleted item exactly when one existed at the
key, or a `ClientError`. -/
inductive DeleteOutcome where
  | ok (attrs : Option Item)
  | clientError (m : String)
  deriving DecidableEq

/-- The store's delete endpoint: `(year, title)` to outcome. -/
abbrev DeleteFn := ℚ → String → DeleteOutcome

/-- A `delete_item` request as issued by `delete_movie`
(dynamodb_handler.py lines 178-181): the key and whether
`ReturnValues='ALL_OLD'` (asking the deleted item's content back) was
set. -/
structure DeleteReq where
  year : ℚ
  title : String
  returnAllOld : Bool
  deriving DecidableEq

/-- The `delete_item` response as seen by `delete_movie`: `attributes` is
present exactly when an item was deleted. -/
structure DeleteResp where
  attributes : Option Item
  deriving DecidableEq

/-- Result of `delete_movie`: the returned value (the response, or `None`
from the except branch), the printed messages and the issued requests. -/
structure DeleteCallOut where
  result : Option DeleteResp
  msgs : List Msg
  requests : List DeleteReq
  deriving DecidableEq

/-- `delete_movie` (dynamodb_handler.py lines 168-189): one `delete_item`
keyed by `(year, title)` with `ReturnValues='ALL_OLD'`; when the response
has no `Attributes` it prints not-found but still returns the response;
it returns `None` only from the `ClientError` branch. -/
def delete_movie (store : DeleteFn) (year : ℚ) (title : String) : DeleteCallOut :=
  match store year title with
  | .ok attrs =>
    { result := some ⟨attrs⟩
      msgs := [.deletingMovie title year] ++
        (match attrs with
          | some _ => [.deletionSuccessful]
          | none => [.deleteNotFound title year])
      requests := [⟨year, title, true⟩] }
  | .clientError m =>
    { result := none
      msgs := [.deletingMovie title year, .deleteClientError m]
      requests := [⟨year, title, true⟩] }

/-- Result of the interactive delete flow: the `delete_item` requests
issued, the printed messages, the unconsumed inputs and whether an
uncaught exception (a `KeyError` on a missing attribute, or reading past
the end of input) propagated to the top-level handler of `main`. -/
structure DeleteFlowOut where
  deletes : List DeleteReq
  msgs : List Msg
  rest : List String
  crashed : Bool
  deriving DecidableEq

/-- `any(movie['year'] == year_to_delete for movie in found_movies)`
(main.py line 109): short-circuit scan; `none` models the `KeyError`
raised when a traversed movie lacks `'year'`. -/
def anyYearEq : List Item → ℚ → Option Bool
  | [], _ => some false
  | m :: rest, y =>
    match m.year with
    | none => none
    | some y' => if y' = y then some true else anyYearEq rest y

/-- Lines 107-112 of main.py: when a year was selected, validate it
against the found movies' years and delete (with the original
user-entered title) only when it is among them, otherwise print the
no-matching-key message. -/
def finish_delete (store : DeleteFn) (title : String) (found : List Item)
    (yearToDelete : Option ℚ) (rest : List String) (msgs : List Msg) :
    DeleteFlowOut :=
  match yearToDelete with
  | none => ⟨[], msgs, rest, false⟩
  | some y =>
    match anyYearEq found y with
    | none => ⟨[], msgs, rest, true⟩
    | some true =>
      let d := delete_movie store y title
      ⟨d.requests, msgs ++ d.msgs, rest, false⟩
    | some false => ⟨[], msgs ++ [.noMatchingKey title y], rest, false⟩

/-- The delete branch of `main` after `find_movies_by_title` returned
`found` (main.py lines 87-112): zero matches go back to the menu; one
match displays it and asks a lowercased y/n confirmation (the prompt
itself interpolates `movie['title']` and `movie['year']`, so a missing
attribute raises before any input is read); several matches display them
and read one year, an unparsable one printing the invalid-year message
and selecting nothing. -/
def delete_flow (store : DeleteFn) (title : String) (found : List Item)
    (inputs : List String) : DeleteFlowOut :=
  match found with
  | [] => ⟨[], [], inputs, false⟩
  | [movie] =>
    let msgs0 : List Msg := [.foundOneMovie, .displayRecords [movie]]
    match movie.title, movie.year with
    | some _, some my =>
      match inputs with
      | [] => ⟨[], msgs0, [], true⟩
      | c :: rest =>
        if pyLower c = "y" then
          finish_delete store title found (some my) rest msgs0
        else
          finish_delete store title found none rest msgs0
    | _, _ => ⟨[], msgs0, inputs, true⟩
  | _ :: _ :: _ =>
    let msgs0 : List Msg := [.foundMultipleMovies, .displayRecords found]
    match inputs with
    | [] => ⟨[], msgs0, [], true⟩
    | s :: rest =>
      match pyParseInt s with
      | some y => finish_delete store title found (some (y : ℚ)) rest msgs0
      | none => finish_delete store title found none rest (msgs0 ++ [.invalidYear])

/-- Result of the rating prompt loop: the parsed rating (`none` models
reading past the end of input), the unconsumed inputs and the printed
messages. -/
structure RatingPromptOut where
  rating : Option ℚ
  rest : List String
  msgs : List Msg
  deriving DecidableEq

/-- The rating prompt loop of `main` (main.py lines 61-68): reads input
strings until one parses as a float, printing the invalid-rating message
and re-prompting in place on each failure. -/
def rating_prompt_loop : List String → RatingPromptOut
  | [] => ⟨none, [], []⟩
  | s :: rest =>
    match pyFloatOfString s with
    | some r => ⟨some r, rest, []⟩
    | none =>
      let o := rating_prompt_loop rest
      ⟨o.rating, o.rest, .invalidRating :: o.msgs⟩

lemma pagedScan_eval (pages : List (List Item)) (start : Option ℕ) :
    pagedScan pages start
      = .ok (pages.getD (start.getD 0) [])
          (if start.getD 0 + 1 < pages.length then some (start.getD 0 + 1) else none) := by
  cases start <;> rfl

lemma get_all_loop_paged (pages : List (List Item)) (fuel k : ℕ)
    (acc : List Item) (calls : ℕ) (hk : k < pages.length)
    (hf : pages.length - k ≤ fuel) :
    get_all_loop (pagedScan pages) fuel acc k calls
      = (some (acc ++ (pages.drop k).flatten), calls + (pages.length - k)) := by
  induction fuel generalizing k acc calls with
  | zero => omega
  | succ fuel ih =>
    have hdrop : pages.drop k = pages[k] :: pages.drop (k + 1) :=
      List.drop_eq_getElem_cons hk
    have hgd : pages.getD k [] = pages[k] := List.getD_eq_getElem pages [] hk
    rw [get_all_loop, pagedScan_eval]
    simp only [Option.getD_some]
    by_cases h : k + 1 < pages.length
    · simp only [h, if_true]
      rw [ih (k + 1) (acc ++ pages.getD k []) (calls + 1) h (by omega)]
      rw [hgd, hdrop]
      simp only [List.flatten_cons, List.append_assoc, Prod.mk.injEq]
      exact ⟨trivial, by omega⟩
    · simp only [h, if_false]
      have hdrop1 : pages.drop (k + 1) = [] := List.drop_eq_nil_of_le (by omega)
      rw [hgd, hdrop, hdrop1]
      simp only [List.flatten_cons, List.flatten_nil, List.append_nil, Prod.mk.injEq]
      exact ⟨trivial, by omega⟩

lemma get_all_records_paged (pages : List (List Item)) (fuel : ℕ)
    (hK : 1 ≤ pages.length) (hf : pages.length ≤ fuel) :
    get_all_records (pagedScan pages) fuel = (some pages.flatten, pages.length) := by
  match pages, hK with
  | p :: ps, _ =>
    have hgd : (p :: ps).getD 0 [] = p := rfl
    rw [get_all_records, pagedScan_eval]
    simp only [Option.getD_none, hgd, Nat.zero_add]
    by_cases h : 1 < (p :: ps).length
    · simp only [h, if_true]
      rw [get_all_loop_paged (p :: ps) fuel 1 p 1 h (by omega)]
      simp only [List.drop_succ_cons, List.drop_zero, List.flatten_cons, Prod.mk.injEq]
      exact ⟨trivial, by omega⟩
    · have hps : ps = [] := by
        cases ps with
        | nil => rfl
        | cons q qs => simp at h
      subst hps
      simp

/-- C1: for a table whose scan is served in K ≥ 1 pages, `get_all_records`
issues exactly K underlying scan calls, following the continuation token
until it is absent, and returns the concatenation of all K pages' items;
when the pages carry no duplicate item (the store's key-uniqueness
invariant) neither does the result; a `ClientError` on the first scan call
or on a later page's call makes it return `None`. -/
theorem C1_get_all_records_pagination (pages : List (List Item)) (fuel : ℕ)
    (hK : 1 ≤ pages.length) (hf : pages.length ≤ fuel)
    (hnd : pages.flatten.Nodup) :
    (get_all_records (pagedScan pages) fuel).1 = some pages.flatten ∧
    (get_all_records (pagedScan pages) fuel).2 = pages.length ∧
    (∀ l, (get_all_records (pagedScan pages) fuel).1 = some l → l.Nodup) ∧
    (∀ m, get_all_records (fun _ => .clientError m) fuel = (none, 1)) ∧
    (∀ m, 2 ≤ pages.length →
      get_all_records
        (fun t => match t with
          | none => pagedScan pages none
          | some _ => .clientError m) fuel = (none, 2)) := by
  have hmain := get_all_records_paged pages fuel hK hf
  refine ⟨by rw [hmain], by rw [hmain], ?_, ?_, ?_⟩
  · intro l hl
    rw [hmain] at hl
    cases hl
    exact hnd
  · intro m
    rfl
  · intro m h2
    match pages, h2 with
    | p :: q :: ps, _ =>
      have h1 : 0 + 1 < (p :: q :: ps).length := by
        simp only [List.length_cons]
        omega
      have hscan : pagedScan (p :: q :: ps) none = .ok p (some 1) := by
        rw [pagedScan_eval]
        simp only [Option.getD_none, h1, if_true]
        rfl
      simp only [get_all_records, hscan]
      cases fuel with
      | zero => simp only [List.length_cons] at hf; omega
      | succ f => simp only [get_all_loop]

/-- Witness for C1 at a concrete two-page table. -/
theorem C1_witness :
    (get_all_records
        (pagedScan [[Item.mk (some 1999) (some "A") none],
                    [Item.mk (some 2001) (some "B") none]]) 2).1
      = some [Item.mk (some 1999) (some "A") none,
              Item.mk (some 2001) (some "B") none] ∧
    (get_all_records
        (pagedScan [[Item.mk (some 1999) (some "A") none],
                    [Item.mk (some 2001) (some "B") none]]) 2).2 = 2 := by
  have h := C1_get_all_records_pagination
    [[Item.mk (some 1999) (some "A") none],
     [Item.mk (some 2001) (some "B") none]] 2
    (by decide) (by decide) (by decide)
  exact ⟨h.1, h.2.1⟩

lemma update_movie_rating_result (store : UpdateFn) (y : ℚ) (t : String) (r : ℚ) :
    (update_movie_rating store y t r).result
      = (match store y t (update_payload r) with
          | .ok a => some a
          | _ => none) := by
  cases h : store y t (update_payload r) <;> simp [update_movie_rating, h]

lemma update_movie_rating_calls (store : UpdateFn) (y : ℚ) (t : String) (r : ℚ) :
    (update_movie_rating store y t r).calls = [(y, t)] := by
  cases h : store y t (update_payload r) <;> simp [update_movie_rating, h]

/-- C3 as stated is false: on a conditional-check failure
`update_movie_rating` returns the very same value (`None`) it returns on
a generic service fault, so the two are not distinguishable by the
caller's return value. -/
theorem C3_counterexample :
    (update_movie_rating (fun _ _ _ => .conditionalCheckFailed) 1999 "Movie" 9).result
      = (update_movie_rating (fun _ _ _ => .clientError "boom") 1999 "Movie" 9).result ∧
    (update_movie_rating (fun _ _ _ => .conditionalCheckFailed) 1999 "Movie" 9).result
      = none := by
  exact ⟨rfl, rfl⟩

/-- C3 (amended): on a conditional-check failure `update_movie_rating`
prints the specific not-found message and never the generic fault
message, and conversely on any other `ClientError`; but its return value
is `None` in both cases, so the caller cannot distinguish them from the
returned value alone. -/
theorem C3_update_not_found_amended (store : UpdateFn) (year : ℚ)
    (title : String) (rating : ℚ) :
    (store year title (update_payload rating) = .conditionalCheckFailed →
      (update_movie_rating store year title rating).result = none ∧
      Msg.updateNotFound title year ∈ (update_movie_rating store year title rating).msgs ∧
      ∀ m, Msg.updateClientError m ∉ (update_movie_rating store year title rating).msgs) ∧
    (∀ m, store year title (update_payload rating) = .clientError m →
      (update_movie_rating store year title rating).result = none ∧
      Msg.updateClientError m ∈ (update_movie_rating store year title rating).msgs ∧
      Msg.updateNotFound title year ∉ (update_movie_rating store year title rating).msgs) := by
  constructor
  · intro h
    simp [update_movie_rating, h]
  · intro m h
    simp [update_movie_rating, h]

/-- Witness for the amended C3 at a concrete conditional-check-failing
store. -/
theorem C3_witness :
    (update_movie_rating (fun _ _ _ => .conditionalCheckFailed) 1999 "Movie" 9).result
      = none ∧
    Msg.updateNotFound "Movie" 1999
      ∈ (update_movie_rating (fun _ _ _ => .conditionalCheckFailed) 1999 "Movie" 9).msgs := by
  have h := (C3_update_not_found_amended (fun _ _ _ => .conditionalCheckFailed)
    1999 "Movie" 9).1 rfl
  exact ⟨h.1, h.2.1⟩

/-- C4 as stated is false: on a service fault `find_movies_by_title`
returns the empty list, the very value it returns when no record
matches, so there is no error signal distinguishable from the
empty-sequence result. -/
theorem C4_counterexample :
    (find_movies_by_title (fun _ => .clientError "boom") "Movie" 1).items
      = (find_movies_by_title (pagedScan [[]]) "Movie" 1).items ∧
    (find_movies_by_title (fun _ => .clientError "boom") "Movie" 1).items = [] := by
  exact ⟨rfl, rfl⟩

/-- C4 (amended): `find_movies_by_title` returns the empty list (not an
error) when no record matches; on a service fault it also returns the
empty list, the fault being reported only through the printed message, so
the return value does not distinguish a fault from an empty result; on a
successful scan it returns exactly the scanned items. -/
theorem C4_find_amended (scanT : ScanFn) (title : String) (fuel : ℕ) :
    (scan_paginate scanT fuel = .ok [] →
      (find_movies_by_title scanT title fuel).items = [] ∧
      Msg.noMovieFoundTitle title ∈ (find_movies_by_title scanT title fuel).msgs) ∧
    (∀ m, scan_paginate scanT fuel = .error m →
      (find_movies_by_title scanT title fuel).items = [] ∧
      Msg.titleSearchClientError m ∈ (find_movies_by_title scanT title fuel).msgs) ∧
    (∀ items, scan_paginate scanT fuel = .ok items →
      (find_movies_by_title scanT title fuel).items = items) := by
  refine ⟨?_, ?_, ?_⟩
  · intro h
    simp [find_movies_by_title, h]
  · intro m h
    simp [find_movies_by_title, h]
  · intro items h
    by_cases hi : items = []
    · simp [find_movies_by_title, h, hi]
    · simp [find_movies_by_title, h, hi]

/-- Witness for the amended C4 at a concrete empty table and a concrete
faulting store. -/
theorem C4_witness :
    (find_movies_by_title (pagedScan [[]]) "Movie" 1).items = [] ∧
    Msg.noMovieFoundTitle "Movie" ∈ (find_movies_by_title (pagedScan [[]]) "Movie" 1).msgs ∧
    (find_movies_by_title (fun _ => .clientError "down") "Movie" 1).items = [] := by
  have h1 := (C4_find_amended (pagedScan [[]]) "Movie" 1).1 rfl
  have h2 := ((C4_find_amended (fun _ => .clientError "down") "Movie" 1).2.1 "down") rfl
  exact ⟨h1.1, h1.2, h2.1⟩

/-- C7: `delete_movie` always issues its `delete_item` with
`ReturnValues='ALL_OLD'`, asking the deleted item's content back; when
nothing existed at the key (a response without `Attributes`) it prints
not-found and still returns the response, a non-`None` value; and it
returns `None` exactly when the store raised a `ClientError`. -/
theorem C7_delete_movie_not_found (store : DeleteFn) (year : ℚ) (title : String) :
    (delete_movie store year title).requests = [⟨year, title, true⟩] ∧
    (store year title = .ok none →
      (delete_movie store year title).result = some ⟨none⟩ ∧
      Msg.deleteNotFound title year ∈ (delete_movie store year title).msgs) ∧
    ((delete_movie store year title).result = none ↔
      ∃ m, store year title = .clientError m) := by
  refine ⟨?_, ?_, ?_⟩
  · cases h : store year title <;> simp [delete_movie, h]
  · intro h
    simp [delete_movie, h]
  · cases h : store year title with
    | ok attrs =>
      simp only [delete_movie, h]
      cases attrs <;> simp
    | clientError m => simp [delete_movie, h]

/-- Witness for C7 at a concrete key with nothing stored. -/
theorem C7_witness :
    (delete_movie (fun _ _ => .ok none) 1999 "Movie").requests
      = [⟨1999, "Movie", true⟩] ∧
    (delete_movie (fun _ _ => .ok none) 1999 "Movie").result = some ⟨none⟩ ∧
    Msg.deleteNotFound "Movie" 1999 ∈ (delete_movie (fun _ _ => .ok none) 1999 "Movie").msgs := by
  have h := C7_delete_movie_not_found (fun _ _ => .ok none) 1999 "Movie"
  exact ⟨h.1, (h.2.1 rfl).1, (h.2.1 rfl).2⟩

lemma delete_movie_requests (store : DeleteFn) (y : ℚ) (t : String) :
    (delete_movie store y t).requests = [⟨y, t, true⟩] := by
  cases h : store y t <;> simp [delete_movie, h]

lemma update_items_loop_resps (store : UpdateFn) (title : String) (r : ℚ)
    (items : List Item) :
    (update_items_loop store title r items).resps
      = items.filterMap (fun it =>
          match it.year with
          | some y =>
            if y = 0 then none
            else
              match store y title (update_payload r) with
              | .ok a => some a
              | _ => none
          | none => none) := by
  induction items with
  | nil => rfl
  | cons item rest ih =>
    cases hy : item.year with
    | none => simp [update_items_loop, hy, List.filterMap_cons, ih]
    | some y =>
      by_cases h0 : y = 0
      · simp [update_items_loop, hy, h0, List.filterMap_cons, ih]
      · cases hs : store y title (update_payload r) <;>
          simp [update_items_loop, hy, h0, List.filterMap_cons, ih,
            update_movie_rating_result, hs]

lemma update_items_loop_calls (store : UpdateFn) (title : String) (r : ℚ)
    (items : List Item) :
    (update_items_loop store title r items).calls
      = (items.filter fun it => pyTruthyNum it.year).map
          fun it => (it.year.getD 0, title) := by
  induction items with
  | nil => rfl
  | cons item rest ih =>
    cases hy : item.year with
    | none => simp [update_items_loop, hy, ih, pyTruthyNum]
    | some y =>
      by_cases h0 : y = 0
      · simp [update_items_loop, hy, h0, ih, pyTruthyNum]
      · simp [update_items_loop, hy, h0, ih, pyTruthyNum,
          update_movie_rating_calls]

lemma update_movie_rating_no_warning (store : UpdateFn) (y : ℚ) (t : String)
    (r : ℚ) (t' : String) :
    Msg.missingYearWarning t' ∉ (update_movie_rating store y t r).msgs := by
  cases h : store y t (update_payload r) <;> simp [update_movie_rating, h]

lemma update_items_loop_warning (store : UpdateFn) (title : String) (r : ℚ)
    (items : List Item) :
    (Msg.missingYearWarning title ∈ (update_items_loop store title r items).msgs
      ↔ ∃ it ∈ items, pyTruthyNum it.year = false) := by
  induction items with
  | nil => simp [update_items_loop]
  | cons item rest ih =>
    cases hy : item.year with
    | none =>
      simp only [update_items_loop, hy, List.mem_cons]
      constructor
      · intro _
        exact ⟨item, Or.inl rfl, by simp [pyTruthyNum, hy]⟩
      · intro _
        exact Or.inl trivial
    | some y =>
      by_cases h0 : y = 0
      · simp only [update_items_loop, hy, h0, if_true, List.mem_cons]
        constructor
        · intro _
          exact ⟨item, Or.inl rfl, by simp [pyTruthyNum, hy, h0]⟩
        · intro _
          exact Or.inl trivial
      · simp only [update_items_loop, hy, h0, if_false, List.mem_append]
        rw [or_iff_right (update_movie_rating_no_warning store y title r title), ih]
        constructor
        · rintro ⟨it, hit, hf⟩
          exact ⟨it, List.mem_cons_of_mem item hit, hf⟩
        · rintro ⟨it, hit, hf⟩
          cases List.mem_cons.mp hit with
          | inl he =>
            subst he
            simp [pyTruthyNum, hy, h0] at hf
          | inr hm => exact ⟨it, hm, hf⟩

/-- C10: `update_movie_rating_by_title` returns the same value, `None`,
when nothing matched the title, when the title scan raised a
`ClientError`, and when every per-item update failed or was skipped, so
the caller cannot tell these situations apart from the return value. -/
theorem C10_by_title_none_three_ways (scanT : ScanFn) (store : UpdateFn)
    (title : String) (rating : ℚ) (fuel : ℕ) :
    (scan_paginate scanT fuel = .ok [] →
      (update_movie_rating_by_title scanT store title rating fuel).result = none) ∧
    (∀ m, scan_paginate scanT fuel = .error m →
      (update_movie_rating_by_title scanT store title rating fuel).result = none) ∧
    (∀ items, scan_paginate scanT fuel = .ok items →
      (∀ it ∈ items, ∀ y, it.year = some y → y ≠ 0 →
        ¬ (store y title (update_payload rating)).isOk) →
      (update_movie_rating_by_title scanT store title rating fuel).result = none) := by
  refine ⟨?_, ?_, ?_⟩
  · intro h
    simp [update_movie_rating_by_title, h]
  · intro m h
    simp [update_movie_rating_by_title, h]
  · intro items h hfail
    by_cases hi : items = []
    · simp [update_movie_rating_by_title, h, hi]
    · have hr : (update_items_loop store title rating items).resps = [] := by
        rw [update_items_loop_resps]
        rw [List.filterMap_eq_nil_iff]
        intro it hit
        cases hy : it.year with
        | none => rfl
        | some y =>
          by_cases h0 : y = 0
          · simp [h0]
          · cases hs : store y title (update_payload rating) with
            | ok a =>
              exfalso
              exact hfail it hit y hy h0 (by rw [hs]; rfl)
            | conditionalCheckFailed => simp [h0, hs]
            | clientError m => simp [h0, hs]
      simp [update_movie_rating_by_title, h, hi, hr]

/-- Witness for C10: the three situations at concrete stores. -/
theorem C10_witness :
    (update_movie_rating_by_title (pagedScan [[]])
      (fun _ _ _ => .ok ⟨none, none, some 9⟩) "Movie" 9 1).result = none ∧
    (update_movie_rating_by_title (fun _ => .clientError "down")
      (fun _ _ _ => .ok ⟨none, none, some 9⟩) "Movie" 9 1).result = none ∧
    (update_movie_rating_by_title (pagedScan [[⟨some 7, some "Movie", none⟩]])
      (fun _ _ _ => .clientError "down") "Movie" 9 1).result = none := by
  refine ⟨?_, ?_, ?_⟩
  · exact (C10_by_title_none_three_ways (pagedScan [[]])
      (fun _ _ _ => .ok ⟨none, none, some 9⟩) "Movie" 9 1).1 rfl
  · exact (C10_by_title_none_three_ways (fun _ => .clientError "down")
      (fun _ _ _ => .ok ⟨none, none, some 9⟩) "Movie" 9 1).2.1 "down" rfl
  · exact (C10_by_title_none_three_ways (pagedScan [[⟨some 7, some "Movie", none⟩]])
      (fun _ _ _ => .clientError "down") "Movie" 9 1).2.2
      [⟨some 7, some "Movie", none⟩] rfl
      (by
        intro it hit y hy h0
        exact (by decide : ¬ (UpdateOutcome.clientError "down").isOk))

lemma anyYearEq_spec (found : List Item) (y : ℚ)
    (h : ∀ m ∈ found, m.year ≠ none) :
    (anyYearEq found y = some true ↔ ∃ m ∈ found, m.year = some y) ∧
    (anyYearEq found y = some false ↔ ∀ m ∈ found, m.year ≠ some y) := by
  induction found with
  | nil => simp [anyYearEq]
  | cons m rest ih =>
    have hrest := ih (fun m' hm' => h m' (List.mem_cons_of_mem m hm'))
    cases hy : m.year with
    | none => exact absurd hy (h m (List.mem_cons_self m rest))
    | some y' =>
      by_cases he : y' = y
      · subst he
        constructor
        · simp [anyYearEq, hy]
        · simp [anyYearEq, hy]
      · have hstep : anyYearEq (m :: rest) y = anyYearEq rest y := by
          simp [anyYearEq, hy, he]
        rw [hstep]
        constructor
        · rw [hrest.1]
          constructor
          · rintro ⟨m', hm', hy'⟩
            exact ⟨m', List.mem_cons_of_mem m hm', hy'⟩
          · rintro ⟨m', hm', hy'⟩
            cases List.mem_cons.mp hm' with
            | inl heq =>
              subst heq
              rw [hy] at hy'
              exact absurd (Option.some.inj hy') he
            | inr hmem => exact ⟨m', hmem, hy'⟩
        · rw [hrest.2]
          constructor
          · intro hfa m' hm'
            cases List.mem_cons.mp hm' with
            | inl heq =>
              subst heq
              rw [hy]
              intro hc
              exact he (Option.some.inj hc)
            | inr hmem => exact hfa m' hmem
          · intro hfa m' hm'
            exact hfa m' (List.mem_cons_of_mem m hm')

/-- C5: in the delete flow with exactly one match, a `delete_item` is
issued only when the lowercased confirmation equals "y"; on a "n" or
empty confirmation no delete request is issued, so the store is not
mutated; and on a "y" the delete is keyed by the matched record's own
year together with the title the flow was given. -/
theorem C5_single_match_confirmation (store : DeleteFn) (title : String)
    (movie : Item) (mt : String) (my : ℚ) (c : String) (rest : List String)
    (ht : movie.title = some mt) (hy : movie.year = some my) :
    ((delete_flow store title [movie] (c :: rest)).deletes ≠ [] → pyLower c = "y") ∧
    ((c = "n" ∨ c = "") → (delete_flow store title [movie] (c :: rest)).deletes = []) ∧
    (pyLower c = "y" →
      (delete_flow store title [movie] (c :: rest)).deletes = [⟨my, title, true⟩]) := by
  have hany : anyYearEq [movie] my = some true := by simp [anyYearEq, hy]
  have hflow : delete_flow store title [movie] (c :: rest)
      = (if pyLower c = "y" then
          finish_delete store title [movie] (some my) rest
            [.foundOneMovie, .displayRecords [movie]]
        else
          finish_delete store title [movie] none rest
            [.foundOneMovie, .displayRecords [movie]]) := by
    simp [delete_flow, ht, hy]
  by_cases hc : pyLower c = "y"
  · refine ⟨fun _ => hc, ?_, ?_⟩
    · intro hne
      exfalso
      cases hne with
      | inl hn =>
        subst hn
        exact absurd hc (by decide)
      | inr he =>
        subst he
        exact absurd hc (by decide)
    · intro _
      rw [hflow, if_pos hc]
      simp [finish_delete, hany, delete_movie_requests]
  · refine ⟨?_, ?_, ?_⟩
    · intro hne
      exfalso
      rw [hflow, if_neg hc] at hne
      simp [finish_delete] at hne
    · intro _
      rw [hflow, if_neg hc]
      simp [finish_delete]
    · intro h
      exact absurd h hc

/-- Witness for C5: a "n" answer issues no delete, a "y" answer issues
exactly the delete of the matched record's key. -/
theorem C5_witness :
    (delete_flow (fun _ _ => .ok none) "The Matrix"
      [⟨some 1999, some "The Matrix", none⟩] ("n" :: [])).deletes = [] ∧
    (delete_flow (fun _ _ => .ok none) "The Matrix"
      [⟨some 1999, some "The Matrix", none⟩] ("y" :: [])).deletes
        = [⟨1999, "The Matrix", true⟩] := by
  constructor
  · exact (C5_single_match_confirmation (fun _ _ => .ok none) "The Matrix"
      ⟨some 1999, some "The Matrix", none⟩ "The Matrix" 1999 "n" [] rfl rfl).2.1
      (Or.inl rfl)
  · exact (C5_single_match_confirmation (fun _ _ => .ok none) "The Matrix"
      ⟨some 1999, some "The Matrix", none⟩ "The Matrix" 1999 "y" [] rfl rfl).2.2
      (by decide)

/-- C6: in the delete flow with several matches and a parsed year, the
delete is issued exactly when the entered year is among the matched
records' years, and its key pairs the validated year with the original
user-entered title string (the `title` argument), not a matched record's
stored title; when the year matches no record the flow prints the
no-matching-key message and issues no delete. -/
theorem C6_multi_match_delete (store : DeleteFn) (title : String)
    (found : List Item) (s : String) (rest : List String) (y : ℤ)
    (hlen : 2 ≤ found.length) (hparse : pyParseInt s = some y)
    (hyears : ∀ m ∈ found, m.year ≠ none) :
    ((∃ m ∈ found, m.year = some (y : ℚ)) →
      (delete_flow store title found (s :: rest)).deletes
        = [⟨(y : ℚ), title, true⟩]) ∧
    ((∀ m ∈ found, m.year ≠ some (y : ℚ)) →
      (delete_flow store title found (s :: rest)).deletes = [] ∧
      Msg.noMatchingKey title (y : ℚ) ∈ (delete_flow store title found (s :: rest)).msgs) ∧
    ((delete_flow store title found (s :: rest)).deletes ≠ [] →
      ∃ m ∈ found, m.year = some (y : ℚ)) := by
  cases found with
  | nil => simp at hlen
  | cons a t =>
    cases t with
    | nil => simp at hlen
    | cons b ms =>
      have hspec := anyYearEq_spec (a :: b :: ms) (y : ℚ) hyears
      have hflow : delete_flow store title (a :: b :: ms) (s :: rest)
          = finish_delete store title (a :: b :: ms) (some (y : ℚ)) rest
              [.foundMultipleMovies, .displayRecords (a :: b :: ms)] := by
        simp [delete_flow, hparse]
      refine ⟨?_, ?_, ?_⟩
      · intro hex
        rw [hflow]
        simp [finish_delete, hspec.1.mpr hex, delete_movie_requests]
      · intro hall
        rw [hflow]
        simp [finish_delete, hspec.2.mpr hall]
      · intro hne
        by_cases hex : ∃ m ∈ (a :: b :: ms), m.year = some (y : ℚ)
        · exact hex
        · exfalso
          have hall : ∀ m ∈ (a :: b :: ms), m.year ≠ some (y : ℚ) := by
            intro m hm hc
            exact hex ⟨m, hm, hc⟩
          rw [hflow] at hne
          simp [finish_delete, hspec.2.mpr hall] at hne

/-- Witness for C6: two matches stored with title "X", entered title "x"
and entered year 1999; the delete key carries the entered title "x". -/
theorem C6_witness :
    (delete_flow (fun _ _ => .ok none) "x"
      [⟨some 1999, some "X", none⟩, ⟨some 2000, some "X", none⟩]
      ("1999" :: [])).deletes = [⟨((1999 : ℤ) : ℚ), "x", true⟩] := by
  exact (C6_multi_match_delete (fun _ _ => .ok none) "x"
    [⟨some 1999, some "X", none⟩, ⟨some 2000, some "X", none⟩]
    "1999" [] 1999 (by decide) (by decide) (by decide)).1
    ⟨⟨some 1999, some "X", none⟩, by decide, by decide⟩

lemma int_log_eval {b : ℕ} {r : ℚ} {e : ℤ} (hb : 1 < b) (hr : 0 < r)
    (h1 : ((b : ℚ)) ^ e ≤ r) (h2 : ¬ ((b : ℚ)) ^ (e + 1) ≤ r) :
    Int.log b r = e := by
  have ha := (Int.zpow_le_iff_le_log hb hr).mp h1
  have hc : ¬ (e + 1 ≤ Int.log b r) :=
    fun h => h2 ((Int.zpow_le_iff_le_log hb hr).mpr h)
  omega

lemma roundHalfEven_intCast (n : ℤ) : roundHalfEven (n : ℚ) = n := by
  unfold roundHalfEven
  rw [Int.floor_intCast]
  norm_num

lemma roundHalfEven_85 : roundHalfEven (85 : ℚ) = 85 := by
  rw [show (85 : ℚ) = ((85 : ℤ) : ℚ) by norm_num, roundHalfEven_intCast]

lemma roundHalfEven_half17 : roundHalfEven (17 / 2 : ℚ) = 8 := by
  unfold roundHalfEven
  have hf : ⌊(17 / 2 : ℚ)⌋ = 8 := by
    rw [Int.floor_eq_iff]
    norm_num
  rw [hf]
  norm_num

lemma log2_half17 : Int.log 2 (17 / 2 : ℚ) = 3 := by
  apply int_log_eval <;> norm_num

lemma log2_eight : Int.log 2 (8 : ℚ) = 3 := by
  apply int_log_eval <;> norm_num

lemma log10_half17 : Int.log 10 (17 / 2 : ℚ) = 0 := by
  apply int_log_eval <;> norm_num

lemma floatRound_pos_eval (q : ℚ) (e : ℤ) (n : ℤ) (hq : 0 < q)
    (hlog : Int.log 2 q = e)
    (hn : q * 2 ^ ((52 : ℤ) - e) = (n : ℚ)) :
    floatRound q = q := by
  unfold floatRound
  rw [if_neg (ne_of_gt hq), if_neg (not_lt.mpr (le_of_lt hq)), abs_of_pos hq,
    hlog, hn, roundHalfEven_intCast, one_mul, ← hn, mul_assoc,
    ← zpow_add₀ (by norm_num : (2 : ℚ) ≠ 0)]
  rw [show (52 : ℤ) - e + (e - 52) = 0 by ring, zpow_zero, mul_one]

lemma floatRound_half17 : floatRound (17 / 2 : ℚ) = 17 / 2 := by
  apply floatRound_pos_eval (17 / 2 : ℚ) 3 (17 * 2 ^ 48) (by norm_num) log2_half17
  push_cast
  norm_num

lemma floatRound_eight : floatRound (8 : ℚ) = 8 := by
  apply floatRound_pos_eval (8 : ℚ) 3 (2 ^ 52) (by norm_num) log2_eight
  push_cast
  norm_num

lemma shortestReprFrom_step (x : ℚ) (e : ℤ) (fuel k : ℕ) :
    shortestReprFrom x e (fuel + 1) k
      = (if floatRound ((roundHalfEven (x / 10 ^ (e - (k : ℤ) + 1)) : ℚ)
            * 10 ^ (e - (k : ℤ) + 1)) = x
         then (roundHalfEven (x / 10 ^ (e - (k : ℤ) + 1)) : ℚ)
            * 10 ^ (e - (k : ℤ) + 1)
         else shortestReprFrom x e fuel (k + 1)) := rfl

lemma pyReprVal_half17 : pyReprVal (17 / 2 : ℚ) = 17 / 2 := by
  rw [pyReprVal, if_neg (by norm_num : ¬ (17 / 2 : ℚ) = 0),
    abs_of_pos (by norm_num : (0 : ℚ) < 17 / 2), log10_half17]
  show shortestReprFrom (17 / 2 : ℚ) 0 (16 + 1) 1 = 17 / 2
  rw [shortestReprFrom_step]
  norm_num [roundHalfEven_half17, floatRound_eight]
  show shortestReprFrom (17 / 2 : ℚ) 0 (15 + 1) 2 = 17 / 2
  rw [shortestReprFrom_step]
  norm_num [roundHalfEven_85, floatRound_half17, zpow_neg]

lemma parseDecParts_85 : parseDecParts "8.5" = some (false, 8, 5, 1) := by decide

lemma decimalVal_85 : decimalValOfString "8.5" = some (17 / 2 : ℚ) := by
  rw [decimalValOfString, parseDecParts_85]
  simp only [Option.map_some']
  norm_num

lemma pyFloat_85 : pyFloatOfString "8.5" = some (17 / 2 : ℚ) := by
  rw [pyFloatOfString, decimalVal_85]
  simp only [Option.map_some']
  rw [floatRound_half17]

/-- C9: the rating entered as the string "8.5" parses to the float value
17/2 exactly; `Decimal(str(new_rating))` stores exactly the decimal 17/2
(`update_payload`); the display boundary (`DecimalEncoder` to float, then
the serializer's `repr`) shows exactly 17/2 — not 8 and not any other
value — and the decimal-to-float conversion is confined to
`DecimalEncoder_default`, leaving the stored decimal unchanged. -/
theorem C9_decimal_fidelity :
    pyFloatOfString "8.5" = some (17 / 2 : ℚ) ∧
    update_payload (17 / 2 : ℚ) = 17 / 2 ∧
    DecimalEncoder_default (17 / 2 : ℚ) = 17 / 2 ∧
    displayedNumeral (17 / 2 : ℚ) = 17 / 2 ∧
    (17 / 2 : ℚ) ≠ 8 ∧ (8 : ℚ) < 17 / 2 ∧ (17 / 2 : ℚ) < 9 := by
  have hf : DecimalEncoder_default (17 / 2 : ℚ) = 17 / 2 := by
    rw [DecimalEncoder_default, floatRound_half17]
  refine ⟨pyFloat_85, ?_, hf, ?_, by norm_num, by norm_num, by norm_num⟩
  · rw [update_payload, pyReprVal_half17]
  · rw [displayedNumeral, hf, pyReprVal_half17]

/-- C8 as stated is false for the year input: after a non-numeric year in
the multi-match delete flow the next input is left unconsumed — the flow
prints the invalid-year message, issues no delete and falls back to the
menu instead of re-prompting for the year. -/
theorem C8_counterexample :
    (delete_flow (fun _ _ => .ok none) "X"
      [⟨some 1999, some "X", none⟩, ⟨some 2000, some "X", none⟩]
      ["abc", "1999"]).deletes = [] ∧
    (delete_flow (fun _ _ => .ok none) "X"
      [⟨some 1999, some "X", none⟩, ⟨some 2000, some "X", none⟩]
      ["abc", "1999"]).rest = ["1999"] ∧
    Msg.invalidYear ∈ (delete_flow (fun _ _ => .ok none) "X"
      [⟨some 1999, some "X", none⟩, ⟨some 2000, some "X", none⟩]
      ["abc", "1999"]).msgs := by
  decide

/-- C8 (amended): a non-numeric rating in the update flow is reported and
re-prompted in place until a numeric one arrives; a non-numeric year in
the multi-match delete flow is reported with the invalid-year message but
not re-prompted — the flow consumes only that one input, issues no delete
and returns to the menu. -/
theorem C8_invalid_input_amended :
    (∀ (bad good : String) (rest : List String) (r : ℚ),
      pyFloatOfString bad = none → pyFloatOfString good = some r →
      rating_prompt_loop (bad :: good :: rest)
        = ⟨some r, rest, [.invalidRating]⟩) ∧
    (∀ (store : DeleteFn) (title : String) (found : List Item)
        (s : String) (rest : List String),
      2 ≤ found.length → pyParseInt s = none →
      delete_flow store title found (s :: rest)
        = ⟨[], [.foundMultipleMovies, .displayRecords found, .invalidYear],
            rest, false⟩) := by
  constructor
  · intro bad good rest r hbad hgood
    simp [rating_prompt_loop, hbad, hgood]
  · intro store title found s rest hlen hparse
    cases found with
    | nil => simp at hlen
    | cons a t =>
      cases t with
      | nil => simp at hlen
      | cons b ms => simp [delete_flow, hparse, finish_delete]

/-- Witness for the amended C8: "abc" then "8.5" for the rating, and
"abc" for the year with two matches. -/
theorem C8_witness :
    rating_prompt_loop ["abc", "8.5"]
      = ⟨some (17 / 2 : ℚ), [], [.invalidRating]⟩ ∧
    delete_flow (fun _ _ => .ok none) "X"
      [⟨some 1999, some "X", none⟩, ⟨some 2000, some "X", none⟩] ["abc"]
      = ⟨[], [.foundMultipleMovies,
          .displayRecords [⟨some 1999, some "X", none⟩, ⟨some 2000, some "X", none⟩],
          .invalidYear], [], false⟩ := by
  constructor
  · exact C8_invalid_input_amended.1 "abc" "8.5" [] (17 / 2 : ℚ) (by decide) pyFloat_85
  · exact C8_invalid_input_amended.2 (fun _ _ => .ok none) "X"
      [⟨some 1999, some "X", none⟩, ⟨some 2000, some "X", none⟩] "abc" []
      (by decide) (by decide)

/-- C2 as stated is false: a matched record whose `year` attribute is
present but equal to 0 is skipped with the missing-year warning — Python
truthiness of `item.get('year')` conflates `Decimal(0)` with a missing
attribute — so no update is invoked for it even though its year is not
missing, and the operation reports no success. -/
theorem C2_counterexample :
    (update_movie_rating_by_title (pagedScan [[⟨some 0, some "X", none⟩]])
      (fun _ _ _ => .ok ⟨none, none, some 9⟩) "X" 9 1).calls = [] ∧
    (update_movie_rating_by_title (pagedScan [[⟨some 0, some "X", none⟩]])
      (fun _ _ _ => .ok ⟨none, none, some 9⟩) "X" 9 1).result = none ∧
    Msg.missingYearWarning "X"
      ∈ (update_movie_rating_by_title (pagedScan [[⟨some 0, some "X", none⟩]])
          (fun _ _ _ => .ok ⟨none, none, some 9⟩) "X" 9 1).msgs ∧
    (⟨some 0, some "X", none⟩ : Item).year ≠ none := by
  decide

lemma by_title_unfold (scanT : ScanFn) (store : UpdateFn) (title : String)
    (rating : ℚ) (fuel : ℕ) (items : List Item)
    (h : scan_paginate scanT fuel = .ok items) (hne : items ≠ []) :
    update_movie_rating_by_title scanT store title rating fuel
      = (if (update_items_loop store title rating items).resps = [] then
          ⟨none,
            [Msg.attemptUpdateByTitle title rating]
              ++ [.foundMoviesAttempting items.length title]
              ++ (update_items_loop store title rating items).msgs
              ++ [.noUpdatesApplied title],
            (update_items_loop store title rating items).calls⟩
        else
          ⟨some (update_items_loop store title rating items).resps,
            [Msg.attemptUpdateByTitle title rating]
              ++ [.foundMoviesAttempting items.length title]
              ++ (update_items_loop store title rating items).msgs
              ++ [.updatedCountSuccess
                    (update_items_loop store title rating items).resps.length title],
            (update_items_loop store title rating items).calls⟩) := by
  simp only [update_movie_rating_by_title, h, hne, if_false]

lemma respFn_ne_none (store : UpdateFn) (title : String) (rating : ℚ)
    (it : Item) :
    ((match it.year with
      | some y =>
        if y = 0 then none
        else
          match store y title (update_payload rating) with
          | .ok a => some a
          | _ => none
      | none => none) ≠ (none : Option Item))
      ↔ ∃ y, it.year = some y ∧ y ≠ 0 ∧
          (store y title (update_payload rating)).isOk := by
  cases hy : it.year with
  | none => simp
  | some y =>
    by_cases h0 : y = 0
    · subst h0
      simp
    · cases hs : store y title (update_payload rating) <;>
        simp [h0, hs, UpdateOutcome.isOk]

/-- C2 (amended): `update_movie_rating_by_title` first resolves all
records matching the title; with no match it issues no update call and
returns the not-found result `None`; otherwise it invokes the single-key
update once per matched record whose `year` attribute is present and
nonzero, keyed by that record's own year, and skips with the warning any
matched record whose year is missing or equal to 0 (Python truthiness);
it reports overall success, with the count of successful updates, exactly
when at least one underlying update succeeded — in particular three
matched records with distinct nonzero years against an accepting store
yield three updates and a report of 3 successes. -/
theorem C2_update_by_title_amended (scanT : ScanFn) (store : UpdateFn)
    (title : String) (rating : ℚ) (fuel : ℕ) :
    (scan_paginate scanT fuel = .ok [] →
      (update_movie_rating_by_title scanT store title rating fuel).result = none ∧
      (update_movie_rating_by_title scanT store title rating fuel).calls = [] ∧
      Msg.noMovieFoundTitle title
        ∈ (update_movie_rating_by_title scanT store title rating fuel).msgs) ∧
    (∀ items, scan_paginate scanT fuel = .ok items → items ≠ [] →
      (update_movie_rating_by_title scanT store title rating fuel).calls
        = (items.filter fun it => pyTruthyNum it.year).map
            (fun it => (it.year.getD 0, title)) ∧
      (Msg.missingYearWarning title
          ∈ (update_movie_rating_by_title scanT store title rating fuel).msgs
        ↔ ∃ it ∈ items, pyTruthyNum it.year = false) ∧
      ((update_movie_rating_by_title scanT store title rating fuel).result ≠ none
        ↔ ∃ it ∈ items, ∃ y, it.year = some y ∧ y ≠ 0 ∧
            (store y title (update_payload rating)).isOk) ∧
      (∀ rs,
        (update_movie_rating_by_title scanT store title rating fuel).result = some rs →
        Msg.updatedCountSuccess rs.length title
          ∈ (update_movie_rating_by_title scanT store title rating fuel).msgs)) ∧
    (∀ i1 i2 i3 : Item, ∀ y1 y2 y3 : ℚ, ∀ a : Item,
      i1.year = some y1 → i2.year = some y2 → i3.year = some y3 →
      y1 ≠ 0 → y2 ≠ 0 → y3 ≠ 0 → y1 ≠ y2 → y1 ≠ y3 → y2 ≠ y3 →
      (∀ y t r, store y t r = .ok a) →
      scan_paginate scanT fuel = .ok [i1, i2, i3] →
      (update_movie_rating_by_title scanT store title rating fuel).result
        = some [a, a, a] ∧
      (update_movie_rating_by_title scanT store title rating fuel).calls
        = [(y1, title), (y2, title), (y3, title)] ∧
      Msg.updatedCountSuccess 3 title
        ∈ (update_movie_rating_by_title scanT store title rating fuel).msgs) := by
  refine ⟨?_, ?_, ?_⟩
  · intro h
    simp [update_movie_rating_by_title, h]
  · intro items h hne
    rw [by_title_unfold scanT store title rating fuel items h hne]
    refine ⟨?_, ?_, ?_, ?_⟩
    · by_cases hr : (update_items_loop store title rating items).resps = [] <;>
        simp [hr, update_items_loop_calls]
    · by_cases hr : (update_items_loop store title rating items).resps = [] <;>
        simp [hr, update_items_loop_warning]
    · have hchar : (update_items_loop store title rating items).resps ≠ []
          ↔ ∃ it ∈ items, ∃ y, it.year = some y ∧ y ≠ 0 ∧
              (store y title (update_payload rating)).isOk := by
        rw [update_items_loop_resps]
        constructor
        · intro hne
          by_contra hnex
          push_neg at hnex
          refine hne (List.filterMap_eq_nil_iff.mpr ?_)
          intro it hit
          by_contra hf
          exact absurd ((respFn_ne_none store title rating it).mp hf)
            (by
              rintro ⟨y, hy, h0, hok⟩
              exact absurd hok (hnex it hit y hy h0))
        · rintro ⟨it, hit, y, hy, h0, hok⟩ hnil
          have hf := List.filterMap_eq_nil_iff.mp hnil it hit
          exact absurd hf
            ((respFn_ne_none store title rating it).mpr ⟨y, hy, h0, hok⟩)
      by_cases hr : (update_items_loop store title rating items).resps = []
      · have hnot : ¬ ∃ it ∈ items, ∃ y, it.year = some y ∧ y ≠ 0 ∧
            (store y title (update_payload rating)).isOk :=
          fun hex => (hchar.mpr hex) hr
        rw [if_pos hr]
        simp [hnot]
      · rw [if_neg hr]
        exact iff_of_true (by simp) (hchar.mp hr)
    · intro rs hrs
      by_cases hr : (update_items_loop store title rating items).resps = []
      · rw [if_pos hr] at hrs
        simp at hrs
      · rw [if_neg hr] at hrs ⊢
        simp only [Option.some.injEq] at hrs
        subst hrs
        simp
  · intro i1 i2 i3 y1 y2 y3 a hy1 hy2 hy3 hz1 hz2 hz3 _ _ _ hstore h
    have hloop : update_items_loop store title rating [i1, i2, i3]
        = ⟨[a, a, a],
            (update_movie_rating store y1 title rating).msgs
              ++ ((update_movie_rating store y2 title rating).msgs
              ++ ((update_movie_rating store y3 title rating).msgs ++ [])),
            [(y1, title)] ++ ([(y2, title)] ++ ([(y3, title)] ++ []))⟩ := by
      simp [update_items_loop, hy1, hy2, hy3, hz1, hz2, hz3,
        update_movie_rating_result, update_movie_rating_calls, hstore]
    rw [by_title_unfold scanT store title rating fuel [i1, i2, i3] h (by simp),
      hloop]
    simp

/-- Witness for the amended C2: three records titled "X" with distinct
nonzero years against an accepting store — three updates keyed by each
record's own year and a report of 3 successes. -/
theorem C2_witness :
    (update_movie_rating_by_title
      (pagedScan [[⟨some 1999, some "X", none⟩, ⟨some 2000, some "X", none⟩,
                   ⟨some 2001, some "X", none⟩]])
      (fun _ _ _ => .ok ⟨none, none, some 9⟩) "X" 9 1).result
        = some [⟨none, none, some 9⟩, ⟨none, none, some 9⟩, ⟨none, none, some 9⟩] ∧
    (update_movie_rating_by_title
      (pagedScan [[⟨some 1999, some "X", none⟩, ⟨some 2000, some "X", none⟩,
                   ⟨some 2001, some "X", none⟩]])
      (fun _ _ _ => .ok ⟨none, none, some 9⟩) "X" 9 1).calls
        = [(1999, "X"), (2000, "X"), (2001, "X")] ∧
    Msg.updatedCountSuccess 3 "X"
      ∈ (update_movie_rating_by_title
          (pagedScan [[⟨some 1999, some "X", none⟩, ⟨some 2000, some "X", none⟩,
                       ⟨some 2001, some "X", none⟩]])
          (fun _ _ _ => .ok ⟨none, none, some 9⟩) "X" 9 1).msgs := by
  exact (C2_update_by_title_amended
    (pagedScan [[⟨some 1999, some "X", none⟩, ⟨some 2000, some "X", none⟩,
                 ⟨some 2001, some "X", none⟩]])
    (fun _ _ _ => .ok ⟨none, none, some 9⟩) "X" 9 1).2.2
    ⟨some 1999, some "X", none⟩ ⟨some 2000, some "X", none⟩
    ⟨some 2001, some "X", none⟩ 1999 2000 2001 ⟨none, none, some 9⟩
    rfl rfl rfl (by decide) (by decide) (by decide) (by decide) (by decide)
    (by decide) (fun _ _ _ => rfl) rfl
